import Mathlib

/-!
Verification of the mcp2rest gateway core (src/gateway/Gateway.ts,
src/types/index.ts) against its natural-language specification.

The TypeScript source is shallowly embedded below.  JavaScript `Map`
(string keys, insertion order preserved) is an association list;
`Promise` results and the `Promise.race` in `callTool` are passed in as
explicit outcome parameters; thrown `Error` values are the strings the
source builds (the single quotes the source puts around interpolated
names are omitted from the message texts, which changes no control
flow); `Date` values are natural-number timestamps (the injective
`toISOString` rendering is abstracted away).  The `ConfigManager`
collaborator is not part of the provided source, so the persisted
configuration is modelled from the spec as a name-to-config mapping with
all-or-nothing add/remove (spec section 6), with fallibility supplied as
an explicit outcome parameter.
-/

/-- Character-list version of a starts-with test. -/
def beginsWithL : List Char → List Char → Bool
  | [], _ => true
  | _ :: _, [] => false
  | a :: as, b :: bs => a == b && beginsWithL as bs

/-- Character-list version of the JavaScript substring test used by the
source (String.prototype.includes). -/
def includesL : List Char → List Char → Bool
  | [], sub => sub.isEmpty
  | c :: t, sub => beginsWithL sub (c :: t) || includesL t sub

/-- JS s.startsWith(pre), used to state which error code a thrown
message carries (the source builds every error as "CODE: detail"). -/
def strStarts (s pre : String) : Bool := beginsWithL pre.data s.data

/-- JS s.includes(sub), the test the source applies to error messages. -/
def strIncludes (s sub : String) : Bool := includesL s.data sub.data

/-- src/types/index.ts ServerConfig. -/
structure ServerConfig where
  name : String
  pkg : String
  args : Option (List String)
deriving DecidableEq

/-- src/types/index.ts ServerState.status values. -/
inductive Status
  | connected
  | disconnected
  | error
  | reconnecting
deriving DecidableEq

/-- Opaque MCP client handle (the SDK Client object), identified only up
to identity. -/
abbrev Client := Nat

/-- src/types/index.ts Tool (inputSchema is an opaque structured value,
kept as its serialized form). -/
structure Tool where
  name : String
  description : Option String
  inputSchema : String
deriving DecidableEq

/-- src/types/index.ts ServerState. -/
structure ServerState where
  config : ServerConfig
  status : Status
  client : Option Client
  tools : List Tool
  reconnectAttempts : Nat
  lastError : Option String
  lastConnected : Option Nat
deriving DecidableEq

/-- JS Map.get on an insertion-ordered association list. -/
def mapGet {α : Type} : List (String × α) → String → Option α
  | [], _ => none
  | (k, v) :: t, k2 => if k = k2 then some v else mapGet t k2

/-- JS Map.has. -/
def mapHas {α : Type} (m : List (String × α)) (k : String) : Bool :=
  (mapGet m k).isSome

/-- JS Map.set: overwrite in place when the key exists, append when it
does not (insertion order preserved). -/
def mapSet {α : Type} : List (String × α) → String → α → List (String × α)
  | [], k, v => [(k, v)]
  | (k2, v2) :: t, k, v =>
      if k2 = k then (k, v) :: t else (k2, v2) :: mapSet t k v

/-- JS Map.delete (keys are unique, so filtering is the single-entry
removal the source performs). -/
def mapDelete {α : Type} (m : List (String × α)) (k : String) :
    List (String × α) :=
  m.filter (fun p => p.1 != k)

/-- src/types/index.ts ServerInfo (lastConnected kept as the timestamp
whose toISOString rendering the source returns). -/
structure ServerInfo where
  name : String
  pkg : String
  status : Status
  toolCount : Nat
  error : Option String
  lastConnected : Option Nat
deriving DecidableEq

/-- Gateway state: the servers Map of Gateway.ts, plus the persisted
configuration held by the ConfigManager collaborator.  Modelled from the
spec: the config persistence collaborator (not in the provided source)
keeps a name-to-spec mapping whose add/remove are all-or-nothing. -/
structure GatewayState where
  servers : List (String × ServerState)
  persisted : List (String × ServerConfig)
deriving DecidableEq

/-- Outcome of the client-connect plus listTools sequence inside
connectServer (external effects, supplied as a parameter). -/
inductive ConnectOutcome
  | success (client : Client) (tools : List Tool) (now : Nat)
  | failure (msg : String)
deriving DecidableEq

/-- Outcome of a ConfigManager persistence call. -/
inductive PersistOutcome
  | ok
  | failure (msg : String)
deriving DecidableEq

/-- Outcome of client.close() during removeServer. -/
inductive CloseOutcome
  | ok
  | failure (msg : String)
deriving DecidableEq

/-- Gateway.connectServer (Gateway.ts lines 57-117).  The fresh
ServerState is put into the map first; on success its fields become
connected/client/tools/now with reconnectAttempts 0, on failure the
status becomes error with lastError set and the error is rethrown
(second component). -/
def connectServer (s : GatewayState) (name : String) (cfg : ServerConfig)
    (out : ConnectOutcome) : GatewayState × Option String :=
  match out with
  | ConnectOutcome.success client tools now =>
      let st : ServerState :=
        ⟨cfg, Status.connected, some client, tools, 0, none, some now⟩
      ({ s with servers := mapSet s.servers name st }, none)
  | ConnectOutcome.failure msg =>
      let st : ServerState := ⟨cfg, Status.error, none, [], 0, some msg, none⟩
      ({ s with servers := mapSet s.servers name st }, some msg)

/-- Gateway.addServer (Gateway.ts lines 204-229).  Duplicate names are
rejected up front; otherwise the config is persisted, then the initial
connect is driven; any failure of either is rethrown wrapped as
SERVER_ADD_FAILED, with no rollback of what already happened. -/
def addServer (s : GatewayState) (name pkg : String)
    (args : Option (List String)) (persist : PersistOutcome)
    (conn : ConnectOutcome) : GatewayState × Except String Unit :=
  if mapHas s.servers name then
    (s, Except.error ("SERVER_ALREADY_EXISTS: Server " ++ name ++ " already exists"))
  else
    let cfg : ServerConfig := ⟨name, pkg, args⟩
    match persist with
    | PersistOutcome.failure msg =>
        (s, Except.error ("SERVER_ADD_FAILED: " ++ msg))
    | PersistOutcome.ok =>
        let s1 : GatewayState := { s with persisted := mapSet s.persisted name cfg }
        match connectServer s1 name cfg conn with
        | (s2, none) => (s2, Except.ok ())
        | (s2, some msg) =>
            (s2, Except.error ("SERVER_ADD_FAILED: " ++ msg))

/-- Gateway.removeServer (Gateway.ts lines 234-259).  Absent names are
rejected; otherwise the client is closed when present (a close failure
is caught, logged and rethrown, aborting the removal), then the map
entry is deleted, then the persisted config is updated (a persistence
failure at that point is rethrown with the map entry already gone). -/
def removeServer (s : GatewayState) (name : String) (close : CloseOutcome)
    (persist : PersistOutcome) : GatewayState × Except String Unit :=
  match mapGet s.servers name with
  | none =>
      (s, Except.error ("SERVER_NOT_FOUND: Server " ++ name ++ " not found"))
  | some st =>
      match st.client, close with
      | some _, CloseOutcome.failure msg => (s, Except.error msg)
      | _, _ =>
          let s1 : GatewayState := { s with servers := mapDelete s.servers name }
          match persist with
          | PersistOutcome.failure msg => (s1, Except.error msg)
          | PersistOutcome.ok =>
              ({ servers := s1.servers,
                 persisted := mapDelete s1.persisted name }, Except.ok ())

/-- Gateway.getServerInfo (Gateway.ts lines 171-186): one snapshot per
map entry, in map (insertion) order, reading but never writing state. -/
def getServerInfo (s : GatewayState) : List ServerInfo :=
  s.servers.map (fun p =>
    ⟨p.1, p.2.config.pkg, p.2.status, p.2.tools.length,
      p.2.lastError, p.2.lastConnected⟩)

/-- The timeout the source computes: this.config.gateway.timeout || 30000
(Gateway.ts line 135).  The JS or-operator falls back on every falsy
value, so an absent timeout and a configured 0 both yield 30000. -/
def effectiveTimeout (cfg : Option Nat) : Nat :=
  match cfg with
  | none => 30000
  | some v => if v == 0 then 30000 else v

/-- The catch block of Gateway.callTool (lines 156-165): a message
containing the substring TOOL_TIMEOUT is rethrown unchanged, every other
message is wrapped as TOOL_EXECUTION_ERROR. -/
def catchHandler (msg : String) : String :=
  if strIncludes msg "TOOL_TIMEOUT" then msg
  else "TOOL_EXECUTION_ERROR: " ++ msg

/-- Result of one callTool invocation, instrumented with whether the
source reached the timeout-promise creation (line 136) and the channel
send (line 146). -/
structure CallResult (α : Type) where
  result : Except String α
  sendAttempted : Bool
  timeoutStarted : Bool

instance {ε α : Type} [DecidableEq ε] [DecidableEq α] : DecidableEq (Except ε α)
  | Except.ok x, Except.ok y =>
      if h : x = y then isTrue (congrArg Except.ok h)
      else isFalse fun hc => h (Except.ok.inj hc)
  | Except.error x, Except.error y =>
      if h : x = y then isTrue (congrArg Except.error h)
      else isFalse fun hc => h (Except.error.inj hc)
  | Except.ok _, Except.error _ => isFalse fun hc => Except.noConfusion hc
  | Except.error _, Except.ok _ => isFalse fun hc => Except.noConfusion hc

instance {α : Type} [DecidableEq α] : DecidableEq (CallResult α) := fun a b =>
  decidable_of_iff
    (a.result = b.result ∧ a.sendAttempted = b.sendAttempted ∧
      a.timeoutStarted = b.timeoutStarted)
    (by cases a; cases b; simp)

/-- Gateway.callTool (Gateway.ts lines 122-166).  timeoutCfg is the
loaded config value this.config.gateway.timeout; the race between the
send and the timeout promise is decided by timeoutWins, and sendResult
is how the send settles (resolve with a payload or reject with a
message) when consulted. -/
def callTool {α : Type} (s : GatewayState) (timeoutCfg : Option Nat)
    (serverName toolName : String) (timeoutWins : Bool)
    (sendResult : Except String α) : CallResult α :=
  match mapGet s.servers serverName with
  | none =>
      ⟨Except.error ("SERVER_NOT_FOUND: Server " ++ serverName ++ " not found"),
        false, false⟩
  | some st =>
      if st.status != Status.connected || st.client.isNone then
        ⟨Except.error ("SERVER_DISCONNECTED: Server " ++ serverName ++ " is not connected"),
          false, false⟩
      else
        let timeout := effectiveTimeout timeoutCfg
        if timeoutWins then
          ⟨Except.error (catchHandler
              ("TOOL_TIMEOUT: Tool execution exceeded " ++ toString timeout ++ "ms timeout")),
            true, true⟩
        else
          match sendResult with
          | Except.ok r => ⟨Except.ok r, true, true⟩
          | Except.error msg => ⟨Except.error (catchHandler msg), true, true⟩

/-- Modelled from the spec: the ReconnectSupervisor backoff interval of
spec sections 4.2-4.3 (backoffBase * 2^(attempts-1), default base
1000 ms, capped at a maximum interval); the supervisor itself is absent
from the provided source, which only declares the reconnectAttempts and
reconnecting-status fields. -/
def backoffInterval (base cap attempts : Nat) : Nat :=
  min (base * 2 ^ (attempts - 1)) cap

/-- Modelled from the spec: the BackendHandle status values of spec
section 4.2. -/
inductive HStatus
  | Connecting
  | Ready
  | Reconnecting
  | Failed
deriving DecidableEq

/-- Modelled from the spec: reconnect-relevant portion of a
BackendHandle (status plus reconnectAttempts). -/
structure RHandle where
  status : HStatus
  attempts : Nat
deriving DecidableEq

/-- Modelled from the spec: the events driving the spec section 4.2
state machine. -/
inductive REvent
  | channelDied
  | connectOk
  | connectFail
  | externalReconnect
deriving DecidableEq

/-- Modelled from the spec: the BackendHandle state machine of spec
sections 4.2-4.3 (ReconnectSupervisor absent from the provided source).
A Ready handle whose channel dies enters Reconnecting with attempts
incremented; a reconnect success returns to Ready with attempts reset; a
reconnect failure reschedules while attempts < maxAttempts and otherwise
yields Failed; Failed persists until an external reconnect request
re-enters Connecting. -/
def rstep (maxAttempts : Nat) (h : RHandle) (e : REvent) : RHandle :=
  match h.status, e with
  | HStatus.Ready, REvent.channelDied =>
      ⟨HStatus.Reconnecting, h.attempts + 1⟩
  | HStatus.Reconnecting, REvent.connectOk => ⟨HStatus.Ready, 0⟩
  | HStatus.Reconnecting, REvent.connectFail =>
      if h.attempts < maxAttempts then
        ⟨HStatus.Reconnecting, h.attempts + 1⟩
      else ⟨HStatus.Failed, h.attempts⟩
  | HStatus.Failed, REvent.externalReconnect => ⟨HStatus.Connecting, 0⟩
  | _, _ => h

/-- A concrete gateway state with one connected backend b, used to
instantiate theorems with hypotheses on concrete inputs. -/
def demoReady : GatewayState :=
  ⟨[("b", ⟨⟨"b", "p", none⟩, Status.connected, some 0, [], 0, none, some 5⟩)],
   [("b", ⟨"b", "p", none⟩)]⟩

/-- A prefix of a list is a prefix of any extension of that list. -/
theorem beginsWithL_append (sub l1 l2 : List Char)
    (h : beginsWithL sub l1 = true) : beginsWithL sub (l1 ++ l2) = true := by
  induction sub generalizing l1 with
  | nil => rfl
  | cons a as ih =>
    cases l1 with
    | nil => simp [beginsWithL] at h
    | cons b bs =>
      simp [beginsWithL] at h ⊢
      exact ⟨h.1, ih bs h.2⟩

/-- A pattern found at the start of a list is found in the list. -/
theorem includesL_of_beginsWithL (l sub : List Char)
    (h : beginsWithL sub l = true) : includesL l sub = true := by
  cases l with
  | nil =>
    cases sub with
    | nil => rfl
    | cons a as => simp [beginsWithL] at h
  | cons c t => simp [includesL, h]

/-- The timeout message the source builds always passes its own
substring test, so the catch block rethrows it unchanged. -/
theorem catchHandler_timeout_msg (t : String) :
    catchHandler ("TOOL_TIMEOUT: Tool execution exceeded " ++ t ++ "ms timeout") =
      "TOOL_TIMEOUT: Tool execution exceeded " ++ t ++ "ms timeout" := by
  have h : strIncludes ("TOOL_TIMEOUT: Tool execution exceeded " ++ t ++ "ms timeout")
      "TOOL_TIMEOUT" = true := by
    unfold strIncludes
    apply includesL_of_beginsWithL
    have hd : ("TOOL_TIMEOUT: Tool execution exceeded " ++ t ++ "ms timeout").data
        = "TOOL_TIMEOUT: Tool execution exceeded ".data ++ (t.data ++ "ms timeout".data) := by
      simp [String.data_append]
    rw [hd]
    exact beginsWithL_append _ _ _ (by decide)
  simp [catchHandler, h]

/-- A message wrapped as TOOL_EXECUTION_ERROR never carries the
SERVER_DISCONNECTED code. -/
theorem strStarts_wrapped_not_disconnected (msg : String) :
    strStarts ("TOOL_EXECUTION_ERROR: " ++ msg) "SERVER_DISCONNECTED" = false := by
  obtain ⟨md⟩ := msg
  rfl

/-- C1: callTool on an unregistered name fails with SERVER_NOT_FOUND,
and on a registered name that is not connected (or has no live client)
fails with SERVER_DISCONNECTED; in both cases no channel send is
attempted and no timeout is started. -/
theorem callTool_fails_fast {α : Type} (s : GatewayState)
    (timeoutCfg : Option Nat) (serverName toolName : String)
    (timeoutWins : Bool) (sendResult : Except String α) :
    (mapGet s.servers serverName = none →
      callTool s timeoutCfg serverName toolName timeoutWins sendResult =
        ⟨Except.error ("SERVER_NOT_FOUND: Server " ++ serverName ++ " not found"),
          false, false⟩) ∧
    (∀ st, mapGet s.servers serverName = some st →
      (st.status ≠ Status.connected ∨ st.client = none) →
      callTool s timeoutCfg serverName toolName timeoutWins sendResult =
        ⟨Except.error ("SERVER_DISCONNECTED: Server " ++ serverName ++ " is not connected"),
          false, false⟩) := by
  constructor
  · intro h
    simp [callTool, h]
  · intro st hst hbad
    simp only [callTool, hst]
    have : (st.status != Status.connected || st.client.isNone) = true := by
      rcases hbad with h1 | h1
      · simp [h1]
      · simp [h1]
    simp [this]

/-- C1 witness. -/
theorem callTool_fails_fast_witness :
    (callTool (α := Nat) ⟨[], []⟩ none "a" "t" false (Except.ok 0) =
      ⟨Except.error "SERVER_NOT_FOUND: Server a not found", false, false⟩) ∧
    (callTool (α := Nat)
        ⟨[("b", ⟨⟨"b", "p", none⟩, Status.error, none, [], 0, none, none⟩)], []⟩
        none "b" "t" false (Except.ok 0) =
      ⟨Except.error "SERVER_DISCONNECTED: Server b is not connected", false, false⟩) := by
  constructor
  · exact (callTool_fails_fast ⟨[], []⟩ none "a" "t" false (Except.ok 0)).1 (by decide)
  · exact (callTool_fails_fast
        ⟨[("b", ⟨⟨"b", "p", none⟩, Status.error, none, [], 0, none, none⟩)], []⟩
        none "b" "t" false (Except.ok 0)).2
      ⟨⟨"b", "p", none⟩, Status.error, none, [], 0, none, none⟩
      (by decide) (Or.inl (by decide))

/-- C2 counterexample: with the gateway timeout configured as 0, the
race uses 30000 ms, not the configured value, because the source
defaults on every falsy value (cfg.gateway.timeout || 30000). -/
theorem timeout_config_zero_counterexample :
    effectiveTimeout (some 0) = 30000 ∧
    effectiveTimeout (some 0) ≠ 0 ∧
    (callTool (α := Nat) demoReady (some 0) "b" "t" true (Except.ok 0)).result =
      Except.error "TOOL_TIMEOUT: Tool execution exceeded 30000ms timeout" := by
  decide

/-- C2 (amended): against a connected backend the send is raced against
a single global timeout of effectiveTimeout cfg milliseconds, which is
the configured value when nonzero and 30000 when absent or 0; when the
timeout fires first callTool returns the TOOL_TIMEOUT error and the
outcome is the same whatever the outstanding send would have returned
(its result is discarded). -/
theorem callTool_timeout_race {α : Type} (s : GatewayState) (cfg : Option Nat)
    (serverName toolName : String) (sr sr2 : Except String α) (st : ServerState)
    (c : Client) (hst : mapGet s.servers serverName = some st)
    (hconn : st.status = Status.connected) (hcl : st.client = some c) :
    (callTool s cfg serverName toolName true sr).result =
      Except.error ("TOOL_TIMEOUT: Tool execution exceeded " ++
        toString (effectiveTimeout cfg) ++ "ms timeout") ∧
    callTool s cfg serverName toolName true sr =
      callTool s cfg serverName toolName true sr2 ∧
    effectiveTimeout none = 30000 ∧
    (∀ v : Nat, v ≠ 0 → effectiveTimeout (some v) = v) ∧
    effectiveTimeout (some 0) = 30000 := by
  refine ⟨?_, ?_, rfl, ?_, rfl⟩
  · simp [callTool, hst, hconn, hcl, catchHandler_timeout_msg]
  · simp [callTool, hst, hconn, hcl]
  · intro v hv
    simp [effectiveTimeout, hv]

/-- C2 witness. -/
theorem callTool_timeout_race_witness :
    (callTool (α := Nat) demoReady none "b" "t" true (Except.ok 0)).result =
      Except.error ("TOOL_TIMEOUT: Tool execution exceeded " ++
        toString (effectiveTimeout none) ++ "ms timeout") :=
  (callTool_timeout_race demoReady none "b" "t" (Except.ok 0) (Except.ok 1)
    ⟨⟨"b", "p", none⟩, Status.connected, some 0, [], 0, none, some 5⟩ 0
    (by decide) rfl rfl).1

/-- C3 counterexample: a transport-level failure of the send (here the
rejection message ECONNRESET) is surfaced with code TOOL_EXECUTION_ERROR
and not as SERVER_DISCONNECTED, and no state transition is performed
(callTool never writes the servers map). -/
theorem transport_error_not_disconnected_counterexample :
    (callTool (α := Nat) demoReady none "b" "t" false
        (Except.error "ECONNRESET")).result =
      Except.error "TOOL_EXECUTION_ERROR: ECONNRESET" ∧
    strStarts "TOOL_EXECUTION_ERROR: ECONNRESET" "SERVER_DISCONNECTED" = false ∧
    strStarts "TOOL_EXECUTION_ERROR: ECONNRESET" "TOOL_EXECUTION_ERROR" = true := by
  decide

/-- C3 (amended): when the send completes before the timeout, a success
returns the payload unchanged; every rejection whose message lacks the
TOOL_TIMEOUT substring — transport-level and application-level alike —
is surfaced as TOOL_EXECUTION_ERROR carrying the message, never as
SERVER_DISCONNECTED and with no dead-channel transition; a rejection
whose message contains TOOL_TIMEOUT is rethrown unchanged. -/
theorem callTool_send_first_classification {α : Type} (s : GatewayState)
    (cfg : Option Nat) (serverName toolName : String) (st : ServerState)
    (c : Client) (hst : mapGet s.servers serverName = some st)
    (hconn : st.status = Status.connected) (hcl : st.client = some c) :
    (∀ r : α, callTool s cfg serverName toolName false (Except.ok r) =
      ⟨Except.ok r, true, true⟩) ∧
    (∀ m : String, strIncludes m "TOOL_TIMEOUT" = false →
      (callTool (α := α) s cfg serverName toolName false (Except.error m)).result =
        Except.error ("TOOL_EXECUTION_ERROR: " ++ m) ∧
      strStarts ("TOOL_EXECUTION_ERROR: " ++ m) "SERVER_DISCONNECTED" = false) ∧
    (∀ m : String, strIncludes m "TOOL_TIMEOUT" = true →
      (callTool (α := α) s cfg serverName toolName false (Except.error m)).result =
        Except.error m) := by
  refine ⟨?_, ?_, ?_⟩
  · intro r
    simp [callTool, hst, hconn, hcl]
  · intro m hm
    refine ⟨?_, strStarts_wrapped_not_disconnected m⟩
    simp [callTool, hst, hconn, hcl, catchHandler, hm]
  · intro m hm
    simp [callTool, hst, hconn, hcl, catchHandler, hm]

/-- C3 witness. -/
theorem callTool_send_first_classification_witness :
    callTool (α := Nat) demoReady none "b" "t" false (Except.ok 7) =
      ⟨Except.ok 7, true, true⟩ :=
  ((callTool_send_first_classification demoReady none "b" "t"
    ⟨⟨"b", "p", none⟩, Status.connected, some 0, [], 0, none, some 5⟩ 0
    (by decide) rfl rfl).1) 7

/-- C9: on the send-completed path, classification of a rejected send
depends only on whether its message contains the substring TOOL_TIMEOUT:
if it does the error is rethrown unchanged (a backend application error
mentioning TOOL_TIMEOUT included), otherwise it is surfaced as
TOOL_EXECUTION_ERROR with the original message appended and never
carries the SERVER_DISCONNECTED code. -/
theorem callTool_error_string_classification {α : Type} (s : GatewayState)
    (cfg : Option Nat) (serverName toolName : String) (st : ServerState)
    (c : Client) (hst : mapGet s.servers serverName = some st)
    (hconn : st.status = Status.connected) (hcl : st.client = some c)
    (m : String) :
    (callTool (α := α) s cfg serverName toolName false (Except.error m)).result =
      (if strIncludes m "TOOL_TIMEOUT" then Except.error m
       else Except.error ("TOOL_EXECUTION_ERROR: " ++ m)) ∧
    (strIncludes m "TOOL_TIMEOUT" = false →
      strStarts ("TOOL_EXECUTION_ERROR: " ++ m) "SERVER_DISCONNECTED" = false) := by
  refine ⟨?_, fun _ => strStarts_wrapped_not_disconnected m⟩
  by_cases h : strIncludes m "TOOL_TIMEOUT" = true
  · simp [callTool, hst, hconn, hcl, catchHandler, h]
  · simp [callTool, hst, hconn, hcl, catchHandler, h]

/-- C9 witness: a backend application error whose message merely
mentions TOOL_TIMEOUT is rethrown unchanged. -/
theorem callTool_error_string_classification_witness :
    (callTool (α := Nat) demoReady none "b" "t" false
        (Except.error "tool failed: TOOL_TIMEOUT budget spent")).result =
      (if strIncludes "tool failed: TOOL_TIMEOUT budget spent" "TOOL_TIMEOUT"
       then Except.error "tool failed: TOOL_TIMEOUT budget spent"
       else Except.error ("TOOL_EXECUTION_ERROR: " ++
         "tool failed: TOOL_TIMEOUT budget spent")) :=
  (callTool_error_string_classification demoReady none "b" "t"
    ⟨⟨"b", "p", none⟩, Status.connected, some 0, [], 0, none, some 5⟩ 0
    (by decide) rfl rfl "tool failed: TOOL_TIMEOUT budget spent").1

/-- Setting a key makes it look up to the new value. -/
theorem mapGet_mapSet_self {α : Type} (m : List (String × α)) (k : String)
    (v : α) : mapGet (mapSet m k v) k = some v := by
  induction m with
  | nil => simp [mapSet, mapGet]
  | cons p t ih =>
    obtain ⟨k2, v2⟩ := p
    by_cases h : k2 = k
    · simp [mapSet, mapGet, h]
    · simp [mapSet, mapGet, h, ih]

/-- Deleting a key makes its lookup fail. -/
theorem mapGet_mapDelete_self {α : Type} (m : List (String × α)) (k : String) :
    mapGet (mapDelete m k) k = none := by
  induction m with
  | nil => rfl
  | cons p t ih =>
    obtain ⟨k2, v2⟩ := p
    by_cases h : k2 = k
    · simpa [mapDelete, List.filter_cons, h] using ih
    · simpa [mapDelete, List.filter_cons, h, mapGet] using ih

/-- Deleting a freshly set key restores the original map. -/
theorem mapDelete_mapSet_fresh {α : Type} (m : List (String × α)) (k : String)
    (v : α) (h : mapGet m k = none) : mapDelete (mapSet m k v) k = m := by
  induction m with
  | nil => simp [mapSet, mapDelete, List.filter_cons]
  | cons p t ih =>
    obtain ⟨k2, v2⟩ := p
    by_cases hk : k2 = k
    · simp [mapGet, hk] at h
    · have ht : mapGet t k = none := by simpa [mapGet, hk] using h
      have hset : mapSet ((k2, v2) :: t) k v = (k2, v2) :: mapSet t k v := by
        simp [mapSet, hk]
      have hkeep : mapDelete ((k2, v2) :: mapSet t k v) k =
          (k2, v2) :: mapDelete (mapSet t k v) k := by
        simp [mapDelete, List.filter_cons, hk]
      rw [hset, hkeep, ih ht]

/-- A key that fails to look up is not among the map keys. -/
theorem keys_contains_eq_false {α : Type} (m : List (String × α)) (k : String)
    (h : mapGet m k = none) : (m.map Prod.fst).contains k = false := by
  induction m with
  | nil => rfl
  | cons p t ih =>
    obtain ⟨k2, v2⟩ := p
    by_cases hk : k2 = k
    · simp [mapGet, hk] at h
    · have ht : mapGet t k = none := by simpa [mapGet, hk] using h
      simpa [List.contains_cons, Ne.symm hk] using ih ht

/-- C4 counterexample: from the empty state, an add whose persistence
succeeds and whose initial connect fails reports SERVER_ADD_FAILED yet
leaves the name registered with status error and its config persisted —
no rollback happens. -/
theorem addServer_no_rollback_counterexample :
    (addServer ⟨[], []⟩ "x" "p" none PersistOutcome.ok
        (ConnectOutcome.failure "refused")).2 =
      Except.error "SERVER_ADD_FAILED: refused" ∧
    mapGet (addServer ⟨[], []⟩ "x" "p" none PersistOutcome.ok
        (ConnectOutcome.failure "refused")).1.servers "x" =
      some ⟨⟨"x", "p", none⟩, Status.error, none, [], 0, some "refused", none⟩ ∧
    mapGet (addServer ⟨[], []⟩ "x" "p" none PersistOutcome.ok
        (ConnectOutcome.failure "refused")).1.persisted "x" =
      some ⟨"x", "p", none⟩ := by
  decide

/-- C4 (amended): a duplicate name fails with SERVER_ALREADY_EXISTS and
changes nothing; a persistence failure yields SERVER_ADD_FAILED with
nothing persisted and the Registry unchanged; but a connect failure
after successful persistence yields SERVER_ADD_FAILED with the Registry
entry (status error) and the persisted config both left in place — the
failed add is not rolled back. -/
theorem addServer_failure_behavior (s : GatewayState) (name pkg : String)
    (args : Option (List String)) :
    (mapHas s.servers name = true → ∀ persist conn,
      addServer s name pkg args persist conn =
        (s, Except.error ("SERVER_ALREADY_EXISTS: Server " ++ name ++ " already exists"))) ∧
    (mapHas s.servers name = false →
      (∀ msg conn, addServer s name pkg args (PersistOutcome.failure msg) conn =
        (s, Except.error ("SERVER_ADD_FAILED: " ++ msg))) ∧
      (∀ msg,
        addServer s name pkg args PersistOutcome.ok (ConnectOutcome.failure msg) =
          (⟨mapSet s.servers name
              ⟨⟨name, pkg, args⟩, Status.error, none, [], 0, some msg, none⟩,
            mapSet s.persisted name ⟨name, pkg, args⟩⟩,
           Except.error ("SERVER_ADD_FAILED: " ++ msg))) ∧
      (∀ msg,
        mapGet (addServer s name pkg args PersistOutcome.ok
            (ConnectOutcome.failure msg)).1.servers name =
          some ⟨⟨name, pkg, args⟩, Status.error, none, [], 0, some msg, none⟩ ∧
        mapGet (addServer s name pkg args PersistOutcome.ok
            (ConnectOutcome.failure msg)).1.persisted name =
          some ⟨name, pkg, args⟩)) := by
  constructor
  · intro hdup persist conn
    simp [addServer, hdup]
  · intro hfresh
    refine ⟨?_, ?_, ?_⟩
    · intro msg conn
      simp [addServer, hfresh]
    · intro msg
      simp [addServer, hfresh, connectServer]
    · intro msg
      constructor
      · simp [addServer, hfresh, connectServer, mapGet_mapSet_self]
      · simp [addServer, hfresh, connectServer, mapGet_mapSet_self]

/-- C4 witness. -/
theorem addServer_failure_behavior_witness :
    addServer demoReady "b" "q" none PersistOutcome.ok
        (ConnectOutcome.success 1 [] 9) =
      (demoReady,
        Except.error "SERVER_ALREADY_EXISTS: Server b already exists") :=
  (addServer_failure_behavior demoReady "b" "q" none).1 (by decide)
    PersistOutcome.ok (ConnectOutcome.success 1 [] 9)

/-- C5 counterexample: a failing client.close makes removeServer
propagate the close error with the entry still registered (the claim
says close failures are not propagated), and a persistence failure after
the map deletion leaves the Registry and the persisted config
disagreeing about the name. -/
theorem removeServer_counterexample :
    (removeServer demoReady "b" (CloseOutcome.failure "close failed")
        PersistOutcome.ok = (demoReady, Except.error "close failed")) ∧
    (mapGet (removeServer demoReady "b" CloseOutcome.ok
        (PersistOutcome.failure "disk full")).1.servers "b" = none ∧
      mapGet (removeServer demoReady "b" CloseOutcome.ok
        (PersistOutcome.failure "disk full")).1.persisted "b" =
        some ⟨"b", "p", none⟩ ∧
      (removeServer demoReady "b" CloseOutcome.ok
        (PersistOutcome.failure "disk full")).2 =
        Except.error "disk full") := by
  decide

/-- C5 (amended): removeServer fails with SERVER_NOT_FOUND when the name
is absent; a close failure on a live client is logged and propagated,
aborting the removal with the entry retained; otherwise the Registry
entry is deleted and then the persisted config updated, in that order,
and a persistence failure at that point propagates with the entry
already deleted in memory but still persisted (the two are left
inconsistent). -/
theorem removeServer_behavior (s : GatewayState) (name : String) :
    (mapGet s.servers name = none → ∀ close persist,
      removeServer s name close persist =
        (s, Except.error ("SERVER_NOT_FOUND: Server " ++ name ++ " not found"))) ∧
    (∀ st c msg persist, mapGet s.servers name = some st → st.client = some c →
      removeServer s name (CloseOutcome.failure msg) persist =
        (s, Except.error msg)) ∧
    (∀ st, mapGet s.servers name = some st →
      removeServer s name CloseOutcome.ok PersistOutcome.ok =
        (⟨mapDelete s.servers name, mapDelete s.persisted name⟩, Except.ok ()) ∧
      mapGet (mapDelete s.servers name) name = none) ∧
    (∀ st msg, mapGet s.servers name = some st →
      removeServer s name CloseOutcome.ok (PersistOutcome.failure msg) =
        (⟨mapDelete s.servers name, s.persisted⟩, Except.error msg)) := by
  refine ⟨?_, ?_, ?_, ?_⟩
  · intro habs close persist
    simp [removeServer, habs]
  · intro st c msg persist hst hcl
    simp [removeServer, hst, hcl]
  · intro st hst
    refine ⟨?_, mapGet_mapDelete_self s.servers name⟩
    cases hc : st.client <;> simp [removeServer, hst, hc]
  · intro st msg hst
    cases hc : st.client <;> simp [removeServer, hst, hc]

/-- C5 witness. -/
theorem removeServer_behavior_witness :
    removeServer demoReady "c" CloseOutcome.ok PersistOutcome.ok =
      (demoReady, Except.error "SERVER_NOT_FOUND: Server c not found") :=
  (removeServer_behavior demoReady "c").1 (by decide) CloseOutcome.ok
    PersistOutcome.ok

/-- The snapshot names returned by getServerInfo are exactly the servers
map keys, in insertion order. -/
theorem getServerInfo_names (s : GatewayState) :
    (getServerInfo s).map (fun i => i.name) = s.servers.map Prod.fst := by
  unfold getServerInfo
  rw [List.map_map]
  rfl

/-- Each association-list entry that a lookup resolves contributes its
snapshot to the mapped snapshot list. -/
theorem snapshot_mem (l : List (String × ServerState)) (n : String)
    (st : ServerState) (h : mapGet l n = some st) :
    (⟨n, st.config.pkg, st.status, st.tools.length, st.lastError,
        st.lastConnected⟩ : ServerInfo) ∈
      l.map (fun p => (⟨p.1, p.2.config.pkg, p.2.status, p.2.tools.length,
        p.2.lastError, p.2.lastConnected⟩ : ServerInfo)) := by
  induction l with
  | nil => simp [mapGet] at h
  | cons p t ih =>
    obtain ⟨k2, v2⟩ := p
    by_cases hk : k2 = n
    · have hv : v2 = st := by simpa [mapGet, hk] using h
      subst hk
      subst hv
      simp
    · have ht : mapGet t n = some st := by simpa [mapGet, hk] using h
      simpa using Or.inr (ih ht)

/-- Every snapshot name resolves in the servers map. -/
theorem snapshot_name_resolves (l : List (String × ServerState))
    (i : ServerInfo)
    (h : i ∈ l.map (fun p => (⟨p.1, p.2.config.pkg, p.2.status,
        p.2.tools.length, p.2.lastError, p.2.lastConnected⟩ : ServerInfo))) :
    (mapGet l i.name).isSome = true := by
  induction l with
  | nil => simp at h
  | cons p t ih =>
    obtain ⟨k2, v2⟩ := p
    rw [List.map_cons, List.mem_cons] at h
    rcases h with h1 | h2
    · subst h1
      simp [mapGet]
    · by_cases hk : k2 = i.name
      · simp [mapGet, hk]
      · simpa [mapGet, hk] using ih h2

/-- C6: getServerInfo yields the snapshots of exactly the registered
names, in registration (insertion) order: the snapshot names equal the
map keys in order; every resolvable name contributes its field-faithful
snapshot (package, status, tool count, last error, last-connected); no
snapshot exists for an unregistered name; and with unique keys the
snapshots are pairwise distinct by name.  The read is a pure function of
the state. -/
theorem getServerInfo_snapshots (s : GatewayState) :
    ((getServerInfo s).map (fun i => i.name) = s.servers.map Prod.fst) ∧
    (∀ n st, mapGet s.servers n = some st →
      (⟨n, st.config.pkg, st.status, st.tools.length, st.lastError,
        st.lastConnected⟩ : ServerInfo) ∈ getServerInfo s) ∧
    (∀ i, i ∈ getServerInfo s → (mapGet s.servers i.name).isSome = true) ∧
    ((s.servers.map Prod.fst).Nodup →
      ((getServerInfo s).map (fun i => i.name)).Nodup) := by
  refine ⟨getServerInfo_names s, ?_, ?_, ?_⟩
  · intro n st h
    exact snapshot_mem s.servers n st h
  · intro i h
    exact snapshot_name_resolves s.servers i h
  · intro h
    rw [getServerInfo_names s]
    exact h

/-- C6 witness. -/
theorem getServerInfo_snapshots_witness :
    (⟨"b", "p", Status.connected, 0, none, some 5⟩ : ServerInfo) ∈
      getServerInfo demoReady :=
  (getServerInfo_snapshots demoReady).2.1 "b"
    ⟨⟨"b", "p", none⟩, Status.connected, some 0, [], 0, none, some 5⟩
    (by decide)

/-- C7: the reconnect policy modelled from the spec.  Backoff intervals
are non-decreasing in the attempt count and follow base * 2^(n-1)
capped (1s, 2s, 4s at the default 1000 ms base with a 4000 ms cap); a
dead channel in Ready enters Reconnecting with the attempt count
incremented; a reconnect failure at or beyond the maxAttempts ceiling
yields Failed; Failed persists under every event except an external
reconnect request, which re-enters Connecting. -/
theorem reconnect_backoff_policy (base cap maxAttempts : Nat) :
    (∀ a b : Nat, a ≤ b →
      backoffInterval base cap a ≤ backoffInterval base cap b) ∧
    (backoffInterval 1000 4000 1 = 1000 ∧ backoffInterval 1000 4000 2 = 2000 ∧
      backoffInterval 1000 4000 3 = 4000) ∧
    (∀ a : Nat, rstep maxAttempts ⟨HStatus.Ready, a⟩ REvent.channelDied =
      ⟨HStatus.Reconnecting, a + 1⟩) ∧
    (∀ h : RHandle, h.status = HStatus.Reconnecting →
      ¬ h.attempts < maxAttempts →
      rstep maxAttempts h REvent.connectFail = ⟨HStatus.Failed, h.attempts⟩) ∧
    (∀ (a : Nat) (e : REvent), e ≠ REvent.externalReconnect →
      (rstep maxAttempts ⟨HStatus.Failed, a⟩ e).status = HStatus.Failed) ∧
    (∀ a : Nat, rstep maxAttempts ⟨HStatus.Failed, a⟩ REvent.externalReconnect =
      ⟨HStatus.Connecting, 0⟩) := by
  refine ⟨?_, by decide, fun a => rfl, ?_, ?_, fun a => rfl⟩
  · intro a b hab
    unfold backoffInterval
    refine min_le_min ?_ le_rfl
    exact Nat.mul_le_mul le_rfl
      (Nat.pow_le_pow_right (by omega) (Nat.sub_le_sub_right hab 1))
  · intro h hs hge
    obtain ⟨st, a⟩ := h
    simp only at hs
    subst hs
    simp [rstep, hge]
  · intro a e he
    cases e with
    | channelDied => rfl
    | connectOk => rfl
    | connectFail => rfl
    | externalReconnect => exact absurd rfl he

/-- C7 witness. -/
theorem reconnect_backoff_policy_witness :
    backoffInterval 1000 4000 1 ≤ backoffInterval 1000 4000 2 ∧
    (rstep 3 ⟨HStatus.Failed, 4⟩ REvent.channelDied).status = HStatus.Failed ∧
    rstep 3 ⟨HStatus.Reconnecting, 3⟩ REvent.connectFail =
      ⟨HStatus.Failed, 3⟩ :=
  ⟨(reconnect_backoff_policy 1000 4000 3).1 1 2 (by omega),
   (reconnect_backoff_policy 1000 4000 3).2.2.2.2.1 4 REvent.channelDied
     (by decide),
   (reconnect_backoff_policy 1000 4000 3).2.2.2.1 ⟨HStatus.Reconnecting, 3⟩
     rfl (by decide)⟩

/-- C8: from a state in which x is registered nowhere, a successful
addServer followed by a successful removeServer leaves listServers with
no entry for x and restores the state exactly, so a subsequent
addServer of x behaves as if x had never been registered and succeeds
with the same outcomes. -/
theorem add_remove_roundtrip (s : GatewayState) (x pkg : String)
    (args : Option (List String)) (cl : Client) (tl : List Tool) (now : Nat)
    (h1 : mapGet s.servers x = none) (h2 : mapGet s.persisted x = none) :
    ∃ s1 s2 : GatewayState,
      addServer s x pkg args PersistOutcome.ok
          (ConnectOutcome.success cl tl now) = (s1, Except.ok ()) ∧
      removeServer s1 x CloseOutcome.ok PersistOutcome.ok =
        (s2, Except.ok ()) ∧
      mapGet s2.servers x = none ∧
      ((getServerInfo s2).map (fun i => i.name)).contains x = false ∧
      s2 = s ∧
      (∀ p c, addServer s2 x pkg args p c = addServer s x pkg args p c) ∧
      (addServer s2 x pkg args PersistOutcome.ok
          (ConnectOutcome.success cl tl now)).2 = Except.ok () := by
  have hhas : mapHas s.servers x = false := by simp [mapHas, h1]
  refine ⟨⟨mapSet s.servers x
      ⟨⟨x, pkg, args⟩, Status.connected, some cl, tl, 0, none, some now⟩,
      mapSet s.persisted x ⟨x, pkg, args⟩⟩, s, ?_, ?_, h1, ?_, rfl,
      fun p c => rfl, ?_⟩
  · simp [addServer, hhas, connectServer]
  · have hg : mapGet (mapSet s.servers x
        ⟨⟨x, pkg, args⟩, Status.connected, some cl, tl, 0, none, some now⟩) x =
        some ⟨⟨x, pkg, args⟩, Status.connected, some cl, tl, 0, none, some now⟩ :=
      mapGet_mapSet_self s.servers x _
    simp [removeServer, hg, mapDelete_mapSet_fresh s.servers x _ h1,
      mapDelete_mapSet_fresh s.persisted x _ h2]
  · rw [getServerInfo_names s]
    exact keys_contains_eq_false s.servers x h1
  · simp [addServer, hhas, connectServer]

/-- C8 witness. -/
theorem add_remove_roundtrip_witness :
    ∃ s1 s2 : GatewayState,
      addServer ⟨[], []⟩ "x" "p" none PersistOutcome.ok
          (ConnectOutcome.success 0 [] 1) = (s1, Except.ok ()) ∧
      removeServer s1 "x" CloseOutcome.ok PersistOutcome.ok =
        (s2, Except.ok ()) ∧
      mapGet s2.servers "x" = none ∧
      ((getServerInfo s2).map (fun i => i.name)).contains "x" = false ∧
      s2 = (⟨[], []⟩ : GatewayState) ∧
      (∀ p c, addServer s2 "x" "p" none p c = addServer ⟨[], []⟩ "x" "p" none p c) ∧
      (addServer s2 "x" "p" none PersistOutcome.ok
          (ConnectOutcome.success 0 [] 1)).2 = Except.ok () :=
  add_remove_roundtrip ⟨[], []⟩ "x" "p" none 0 [] 1 rfl rfl

/-- C10: after an addServer whose persistence succeeded and whose
initial connect failed, the name stays in the Registry with status
error and its config persisted, listServers still shows a snapshot for
it, every further addServer of the name fails with
SERVER_ALREADY_EXISTS, and only removeServer (here with successful
persistence) clears the entry again. -/
theorem addServer_failed_connect_leaves_entry (s : GatewayState)
    (name pkg : String) (args : Option (List String)) (msg : String)
    (h : mapGet s.servers name = none) :
    (addServer s name pkg args PersistOutcome.ok
        (ConnectOutcome.failure msg)).2 =
      Except.error ("SERVER_ADD_FAILED: " ++ msg) ∧
    mapGet (addServer s name pkg args PersistOutcome.ok
        (ConnectOutcome.failure msg)).1.servers name =
      some ⟨⟨name, pkg, args⟩, Status.error, none, [], 0, some msg, none⟩ ∧
    mapGet (addServer s name pkg args PersistOutcome.ok
        (ConnectOutcome.failure msg)).1.persisted name =
      some ⟨name, pkg, args⟩ ∧
    (⟨name, pkg, Status.error, 0, some msg, none⟩ : ServerInfo) ∈
      getServerInfo (addServer s name pkg args PersistOutcome.ok
        (ConnectOutcome.failure msg)).1 ∧
    (∀ pkg2 args2 p c,
      (addServer (addServer s name pkg args PersistOutcome.ok
          (ConnectOutcome.failure msg)).1 name pkg2 args2 p c).2 =
        Except.error ("SERVER_ALREADY_EXISTS: Server " ++ name ++ " already exists")) ∧
    (∀ close,
      mapGet (removeServer (addServer s name pkg args PersistOutcome.ok
          (ConnectOutcome.failure msg)).1 name close PersistOutcome.ok).1.servers
        name = none) := by
  have hhas : mapHas s.servers name = false := by simp [mapHas, h]
  have hr : addServer s name pkg args PersistOutcome.ok
      (ConnectOutcome.failure msg) =
      (⟨mapSet s.servers name
          ⟨⟨name, pkg, args⟩, Status.error, none, [], 0, some msg, none⟩,
        mapSet s.persisted name ⟨name, pkg, args⟩⟩,
       Except.error ("SERVER_ADD_FAILED: " ++ msg)) := by
    simp [addServer, hhas, connectServer]
  rw [hr]
  have hgs : mapGet (mapSet s.servers name
      ⟨⟨name, pkg, args⟩, Status.error, none, [], 0, some msg, none⟩) name =
      some ⟨⟨name, pkg, args⟩, Status.error, none, [], 0, some msg, none⟩ :=
    mapGet_mapSet_self s.servers name _
  refine ⟨rfl, hgs, mapGet_mapSet_self s.persisted name _, ?_, ?_, ?_⟩
  · exact snapshot_mem _ name _ hgs
  · intro pkg2 args2 p c
    simp [addServer, mapHas, hgs]
  · intro close
    simp [removeServer, hgs, mapGet_mapDelete_self]

/-- C10 witness. -/
theorem addServer_failed_connect_leaves_entry_witness :
    (addServer ⟨[], []⟩ "y" "q" none PersistOutcome.ok
        (ConnectOutcome.failure "refused")).2 =
      Except.error ("SERVER_ADD_FAILED: " ++ "refused") ∧
    mapGet (addServer ⟨[], []⟩ "y" "q" none PersistOutcome.ok
        (ConnectOutcome.failure "refused")).1.servers "y" =
      some ⟨⟨"y", "q", none⟩, Status.error, none, [], 0, some "refused", none⟩ :=
  ⟨(addServer_failed_connect_leaves_entry ⟨[], []⟩ "y" "q" none "refused" rfl).1,
   (addServer_failed_connect_leaves_entry ⟨[], []⟩ "y" "q" none "refused" rfl).2.1⟩
